import Mathlib

/-!
Verification development for the slide-deck scripts of tylerjw.dev.

The repository consists of three Python files:
  * content/slides/my_layouts.py  — layout helpers over the external `elsie`
    presentation library (`init_slides`, `get_image_path`, `logo_header_slide`,
    `image_slide`, `section_title_slide`, `code_slide`);
  * slides/roscon23_parameters.py — a slide deck rendered to
    "roscon23_parameters.pdf";
  * slides/rust_cpp_interop.py    — a slide deck rendered to
    "rust_cpp_interop.pdf".

The external `elsie` library is modelled shallowly: building a slide is the
emission of a sequence of box-tree construction events (each `box`/`sbox`/
`fbox`/`overlay` call allocates a fresh box id under a parent id; each
`text`/`image`/`code`/`rect` call attaches a leaf to a box).  A slide deck is
a width, a height, a style registry and an ordered list of slides; the
`@slides.slide` decorator appends the decorated function's slide to that list
at definition time, and rendering emits the slides in list order.
-/

/-- Subset of `elsie.TextStyle` fields used by the repository.  Fields the
scripts never pass stay `none`. -/
structure TextStyle where
  font : Option String := none
  align : Option String := none
  size : Option Nat := none
  color : Option String := none
  bold : Option Bool := none
  italic : Option Bool := none
deriving Repr, DecidableEq

/-- Merging an update into a base style: fields present in the update win,
as in `elsie`'s style composition. -/
def TextStyle.merge (base upd : TextStyle) : TextStyle :=
  { font := upd.font <|> base.font
    align := upd.align <|> base.align
    size := upd.size <|> base.size
    color := upd.color <|> base.color
    bold := upd.bold <|> base.bold
    italic := upd.italic <|> base.italic }

/-- A box dimension / coordinate: either a pixel number or one of the string
forms the scripts use ("fill", "50%", "100%", "[100%]"). -/
inductive Dim where
  | px (v : Int)
  | str (v : String)
deriving Repr, DecidableEq

/-- Keyword attributes passed to `box`/`sbox`/`fbox` calls in the scripts. -/
structure BoxAttrs where
  name : Option String := none
  x : Option Dim := none
  y : Option Dim := none
  width : Option Dim := none
  height : Option Dim := none
  p_left : Option Nat := none
  p_right : Option Nat := none
  p_top : Option Nat := none
  p_bottom : Option Nat := none
  horizontal : Option Bool := none
  show_ : Option String := none
  z_level : Option Int := none
deriving Repr, DecidableEq

/-- The kind of a box-creating call. -/
inductive NodeKind where
  | box
  | sbox
  | fbox
  | overlay
deriving Repr, DecidableEq

/-- Content leaves attached to boxes. -/
inductive Leaf where
  | text (content : String) (style : Option TextStyle)
  | image (path : String)
  | code (language : String) (source : String)
  | rect (bg_color : Option String) (rx : Option Int) (ry : Option Int)
deriving Repr, DecidableEq

/-- A box-tree construction event: creation of a box under a parent box id,
or attachment of a leaf to a box id. -/
inductive Ev where
  | newBox (id : Nat) (parent : Nat) (kind : NodeKind) (attrs : BoxAttrs)
  | leaf (box : Nat) (l : Leaf)
deriving Repr, DecidableEq

/-- The box id an event attaches to (the parent of a created box, the carrier
box of a leaf). -/
def Ev.parentId : Ev → Nat
  | .newBox _ p _ _ => p
  | .leaf b _ => b

/-- Builder state while a slide function runs: the next fresh box id, the
events emitted so far, and — so that frame properties are expressible — the
deck's style registry and the module globals, which the helpers could in
principle mutate but never do. -/
structure BState where
  next : Nat
  events : List Ev
  styles : List (String × TextStyle)
  globals : List (String × String)
deriving Repr, DecidableEq

/-- Allocate a fresh box of the given kind under `parent`. -/
def newBox (parent : Nat) (kind : NodeKind) (a : BoxAttrs) (s : BState) :
    Nat × BState :=
  (s.next,
   { s with
      next := s.next + 1
      events := s.events ++ [Ev.newBox s.next parent kind a] })

/-- Attach a leaf to box `b`. -/
def addLeaf (b : Nat) (l : Leaf) (s : BState) : BState :=
  { s with events := s.events ++ [Ev.leaf b l] }

/-- `parent.box(...)` -/
def box (parent : Nat) (a : BoxAttrs) (s : BState) : Nat × BState :=
  newBox parent NodeKind.box a s

/-- `parent.sbox(...)` -/
def sbox (parent : Nat) (a : BoxAttrs) (s : BState) : Nat × BState :=
  newBox parent NodeKind.sbox a s

/-- `parent.fbox(...)` -/
def fbox (parent : Nat) (a : BoxAttrs) (s : BState) : Nat × BState :=
  newBox parent NodeKind.fbox a s

/-- `box.overlay()` -/
def overlay (parent : Nat) (a : BoxAttrs) (s : BState) : Nat × BState :=
  newBox parent NodeKind.overlay a s

/-- `box.text(content, style?)` -/
def text (b : Nat) (content : String) (st : Option TextStyle) (s : BState) :
    BState :=
  addLeaf b (Leaf.text content st) s

/-- `box.image(path)` -/
def image (b : Nat) (path : String) (s : BState) : BState :=
  addLeaf b (Leaf.image path) s

/-- `box.code(language, source)` -/
def code (b : Nat) (language source : String) (s : BState) : BState :=
  addLeaf b (Leaf.code language source) s

/-- `box.rect(bg_color=..., rx=..., ry=...)` -/
def rect (b : Nat) (bg : Option String) (rx ry : Option Int) (s : BState) :
    BState :=
  addLeaf b (Leaf.rect bg rx ry) s

/-- A registered slide: the Python function name it was declared with, the
root box id, the next fresh id after building, and its build events. -/
structure Slide where
  name : String
  root : Nat
  next : Nat
  events : List Ev
deriving Repr

/-- A slide deck: geometry, style registry, and the ordered slide list. -/
structure SlideDeck where
  width : Nat
  height : Nat
  styles : List (String × TextStyle)
  slides : List Slide

/-- `elsie.SlideDeck(width=..., height=...)`.  The external library's built-in
base styles are modelled as present with all fields unset: only their
presence (so that `update_style` has something to merge into) matters to the
scripts. -/
def SlideDeck.new (width height : Nat) : SlideDeck :=
  { width := width
    height := height
    styles := [("default", {}), ("code", {})]
    slides := [] }

/-- `deck.update_style(name, style)`: merge `style` into the registered style
of that name. -/
def SlideDeck.update_style (d : SlideDeck) (n : String) (st : TextStyle) :
    SlideDeck :=
  { d with
      styles := d.styles.map fun p =>
        if p.1 = n then (p.1, TextStyle.merge p.2 st) else p }

/-- `deck.set_style(name, style)`: register a new style under `name`. -/
def SlideDeck.set_style (d : SlideDeck) (n : String) (st : TextStyle) :
    SlideDeck :=
  { d with styles := d.styles.filter (fun p => p.1 ≠ n) ++ [(n, st)] }

/-- Lookup in the style registry. -/
def SlideDeck.lookupStyle (d : SlideDeck) (n : String) : Option TextStyle :=
  (d.styles.find? fun p => p.1 == n).map Prod.snd

/-! ## content/slides/my_layouts.py -/

/-- `init_slides` from content/slides/my_layouts.py. -/
def init_slides : SlideDeck :=
  let slides := SlideDeck.new 1920 1080
  let slides := slides.update_style "default"
    { font := some "Lato", align := some "left", size := some 64 }
  let slides := slides.update_style "code" { size := some 38 }
  let slides := slides.set_style "link" { color := some "blue" }
  slides

/-- `get_image_path` from content/slides/my_layouts.py. -/
def get_image_path (filename : String) : String :=
  let images_dir := "../../static/images/"
  images_dir ++ filename

/-- `logo_header_slide` from content/slides/my_layouts.py. -/
def logo_header_slide (parent : Nat) (title : String) (s : BState) :
    Nat × BState :=
  let (b1, s) := box parent { x := some (Dim.px 1570), y := some (Dim.px 40) } s
  let s := image b1 (get_image_path "picknik_logo.png") s
  let (hd, s) := sbox parent
    { name := some "header", x := some (Dim.px 0),
      height := some (Dim.px 140) } s
  let (hf, s) := fbox hd { p_left := some 20 } s
  let s := text hf title (some { bold := some true }) s
  fbox parent { name := some "content", p_left := some 20, p_right := some 20 } s

/-- `image_slide` from content/slides/my_layouts.py. -/
def image_slide (parent : Nat) (title : String) (image_path : String)
    (s : BState) : Nat × BState :=
  let (content, s) := logo_header_slide parent title s
  let (content, s) := fbox content
    { horizontal := some true, p_top := some 20, p_bottom := some 20 } s
  let (text_area, s) := fbox content
    { name := some "text_area", width := some (Dim.str "50%") } s
  let (img, s) := sbox content
    { name := some "image", width := some (Dim.str "fill") } s
  let s := image img image_path s
  (text_area, s)

/-- `section_title_slide` from content/slides/my_layouts.py. -/
def section_title_slide (parent : Nat) (title : String) (subtitle : String)
    (s : BState) : BState :=
  let (content, s) := logo_header_slide parent "" s
  let (b1, s) := sbox content {} s
  let s := text b1 title
    (some { align := some "right", size := some 240, bold := some true }) s
  let (b2, s) := box content {} s
  text b2 subtitle none s

/-- `code_slide` from content/slides/my_layouts.py. -/
def code_slide (parent : Nat) (title : String) (language : String)
    (source : String) (s : BState) : BState :=
  let (content, s) := logo_header_slide parent title s
  let code_bg := "#F6F8FA"
  let (b, s) := box content
    { y := some (Dim.px 0), width := some (Dim.str "100%"),
      height := some (Dim.str "100%"), p_bottom := some 20 } s
  let s := rect b (some code_bg) (some 20) (some 20) s
  let (o, s) := overlay b {} s
  let (c, s) := box o
    { x := some (Dim.px 0), y := some (Dim.px 0), p_left := some 20,
      p_right := some 20, p_top := some 20, p_bottom := some 20 } s
  code c language source s

/-! ## Deck construction and rendering

The two slide scripts are flat module bodies: a deck initialization, a
sequence of `@slides.slide(debug_boxes=False)`-decorated slide functions
(the decorator registers the function's slide on the deck at definition
time, so repeated Python names each still register), and a final
`render_deck` call.  A script is embedded as its list of top-level
statements in textual order. -/

/-- Run a slide-building function on a fresh root box, producing the
registered slide.  The deck's style registry is visible to the builder (and
provably untouched by it). -/
def mkSlide (nm : String) (body : Nat → BState → BState)
    (styles : List (String × TextStyle)) : Slide :=
  let s := body 0 { next := 1, events := [], styles := styles, globals := [] }
  { name := nm, root := 0, next := s.next, events := s.events }

/-- A rendered document: its fixed output path and its pages, one per slide
in deck order.  PDF byte emission itself is the external library's work; the
model keeps the page list, so "non-empty PDF" is a non-empty page list. -/
structure RenderOutput where
  path : String
  pages : List Slide

/-- A top-level statement of a slide script: a decorated slide definition
(`debug_boxes=False` carries no model content), or the final render call with
its optional page-numbering function. -/
inductive TopStmt where
  | defSlide (nm : String) (body : Nat → BState → BState)
  | render (path : String) (pnf : Option (SlideDeck → SlideDeck))

/-- The file writes a top-level statement performs: only a render call writes
a file, at its fixed output path. -/
def stmtWrites : TopStmt → List String
  | .defSlide _ _ => []
  | .render p _ => [p]

/-- Execute one top-level statement: registration appends a slide; rendering
leaves the deck unchanged and emits one output document (after applying the
page-numbering function, if any). -/
def runStmt (d : SlideDeck) : TopStmt → SlideDeck × List RenderOutput
  | .defSlide nm body =>
      ({ d with slides := d.slides ++ [mkSlide nm body d.styles] }, [])
  | .render path pnf =>
      let d2 := match pnf with
        | some f => f d
        | none => d
      (d, [{ path := path, pages := d2.slides }])

/-- Execute a script body on an initial deck, accumulating render outputs. -/
def runStmts (d : SlideDeck) (l : List TopStmt) :
    SlideDeck × List RenderOutput :=
  l.foldl
    (fun acc st =>
      let r := runStmt acc.1 st
      (r.1, acc.2 ++ r.2))
    (d, [])

/-! ## The slide scripts' layout module, modelled where missing

Both scripts do `from my_layouts import *` and call `init_deck`,
`render_deck`, `text_slide`, `full_image_slide` and
`grayed_before_after_code_slide`.  The `my_layouts.py` next to the scripts
that defines these is not among the repository's source files — only the
layout module content/slides/my_layouts.py (whose helpers
`logo_header_slide`, `image_slide`, `section_title_slide`, `code_slide`,
`get_image_path` the scripts also use) is.  The missing functions are
modelled from the spec below. -/

/-- Modelled from the spec: `init_deck`, the deck initializer the scripts
call, is missing from the sources.  Per the spec the script "initializes a
presentation object with style defaults" and "style names must be defined
before use"; it is modelled as the in-repository initializer `init_slides`
extended with the inline-markup style "grayed_text" that the scripts use
(only its presence matters to any claim) and with the `font=` keyword the
rust_cpp_interop script passes, merged into the default style. -/
def init_deck (font : Option String) : SlideDeck :=
  let d := init_slides
  let d := match font with
    | some f => d.update_style "default" { font := some f }
    | none => d
  d.set_style "grayed_text" { color := some "gray" }

/-- Modelled from the spec: `render_deck(deck, path, page_numbering_func=…)`
is missing from the sources.  Per the spec the script "invokes a render call
at the end" which writes "one output file at the end" at "a fixed output
path"; modelled as applying the page-numbering function, if given, and
emitting the deck's slides as the pages of a document at `path`. -/
def render_deck (d : SlideDeck) (path : String)
    (pnf : Option (SlideDeck → SlideDeck)) : RenderOutput :=
  let d2 := match pnf with
    | some f => f d
    | none => d
  { path := path, pages := d2.slides }

/-- Modelled from the spec: `text_slide`, used by rust_cpp_interop.py, is
missing from the sources.  Per the spec the helpers "are simple composition
wrappers"; modelled as the header layout returning its content box as the
text area. -/
def text_slide (parent : Nat) (title : String) (s : BState) : Nat × BState :=
  logo_header_slide parent title s

/-- Modelled from the spec: `full_image_slide`, used by rust_cpp_interop.py,
is missing from the sources.  Per the spec the helpers "are simple
composition wrappers"; modelled as the header layout with the image filling
the content box. -/
def full_image_slide (parent : Nat) (title : String) (image_path : String)
    (s : BState) : BState :=
  let (content, s) := logo_header_slide parent title s
  image content image_path s

/-- Modelled from the spec: `grayed_before_after_code_slide`, used by
roscon23_parameters.py, is missing from the sources.  Per the spec the
helpers "are simple composition wrappers"; modelled as a code slide whose
code block is the before/focus/after parts in sequence (the graying of the
surrounding parts is presentation styling the model does not track). -/
def grayed_before_after_code_slide (parent : Nat) (title : String)
    (language : String) (before : String) (focus : String) (after : String)
    (s : BState) : BState :=
  code_slide parent title language (before ++ focus ++ after) s

/-! ## my_page_numbering (rust_cpp_interop.py) -/

/-- Opening brace character (kept out of literals). -/
def obrace : Char := Char.ofNat 123

/-- Closing brace character (kept out of literals). -/
def cbrace : Char := Char.ofNat 125

/-- The page-number label of rust_cpp_interop.py's
`f"{i+1} ~grayed_text{{of {total}}}"`. -/
def pageText (i total : Nat) : String :=
  toString (i + 1) ++ " ~grayed_text\x7bof " ++ toString total ++ "\x7d"

/-- Add the page-number box of `my_page_numbering` to one slide:
`slide.box(x="[100%]", y="[100%]", p_right=30, p_bottom=30).text(...)`. -/
def addPageNum (i total : Nat) (sl : Slide) : Slide :=
  let s0 : BState :=
    { next := sl.next, events := sl.events, styles := [], globals := [] }
  let (b, s) := box sl.root
    { x := some (Dim.str "[100%]"), y := some (Dim.str "[100%]"),
      p_right := some 30, p_bottom := some 30 } s0
  let s := text b (pageText i total)
    (some { align := some "right", size := some 36 }) s
  { sl with next := s.next, events := s.events }

/-- `my_page_numbering` from rust_cpp_interop.py: labels slide `i` (0-based)
of an `n`-slide deck with "i+1 of n". -/
def my_page_numbering (d : SlideDeck) : SlideDeck :=
  let total := d.slides.length
  { d with slides := d.slides.enum.map fun p => addPageNum p.1 total p.2 }

/-! ## Inline style markup

`elsie` text may carry inline markup `~styleName{...}`; the scripts use the
style names "link" and "grayed_text" this way.  The scanners below recover
the style names used by a text, and the text as displayed (markup
stripped). -/

/-- Scan for `~name` occurrences, the name ending at an opening brace; the
`some acc` state is the reversed name being read. -/
def inlineAux : Option (List Char) → List Char → List (List Char)
  | none, [] => []
  | some nm, [] => [nm.reverse]
  | some nm, c :: rest =>
      if c = obrace then nm.reverse :: inlineAux none rest
      else inlineAux (some (c :: nm)) rest
  | none, c :: rest =>
      if c = '~' then inlineAux (some []) rest
      else inlineAux none rest

/-- The inline style names used by a text. -/
def inlineStyleNames (t : String) : List String :=
  (inlineAux none t.toList).map fun l => String.mk l

/-- Strip inline markup: `~name{body}` displays as `body`.  The boolean state
is "inside a `~name` prefix, before its opening brace". -/
def stripAux : Bool → List Char → List Char
  | _, [] => []
  | true, c :: rest =>
      if c = obrace then stripAux false rest else stripAux true rest
  | false, c :: rest =>
      if c = '~' then stripAux true rest
      else if c = cbrace then stripAux false rest
      else c :: stripAux false rest

/-- A text as displayed, inline markup stripped. -/
def stripMarkup (t : String) : String :=
  String.mk (stripAux false t.toList)

/-- The style names a slide uses: every plain text uses the "default" style,
every code block the "code" style, and text markup uses its named inline
styles. -/
def slideUsedStyleNames (sl : Slide) : List String :=
  sl.events.flatMap fun e =>
    match e with
    | .leaf _ (.text c _) => "default" :: inlineStyleNames c
    | .leaf _ (.code _ _) => ["code"]
    | _ => []

/-- The names registered in a deck's style registry. -/
def styleNames (d : SlideDeck) : List String :=
  d.styles.map Prod.fst

/-- Placeholder slide for safe indexing in concrete statements. -/
def emptySlide : Slide :=
  { name := "", root := 0, next := 1, events := [] }

/-! ## Equations for the layout helpers

Each helper emits a fixed event sequence; these closed forms drive the frame
and layout theorems below. -/

/-- The events `logo_header_slide parent title` emits when the next fresh id
is `n`. -/
def logoHeaderEvs (p n : Nat) (t : String) : List Ev :=
  [Ev.newBox n p NodeKind.box
      { x := some (Dim.px 1570), y := some (Dim.px 40) },
   Ev.leaf n (Leaf.image (get_image_path "picknik_logo.png")),
   Ev.newBox (n + 1) p NodeKind.sbox
      { name := some "header", x := some (Dim.px 0),
        height := some (Dim.px 140) },
   Ev.newBox (n + 2) (n + 1) NodeKind.fbox { p_left := some 20 },
   Ev.leaf (n + 2) (Leaf.text t (some { bold := some true })),
   Ev.newBox (n + 3) p NodeKind.fbox
      { name := some "content", p_left := some 20, p_right := some 20 }]

/-- The events `image_slide parent title image_path` emits when the next
fresh id is `n`. -/
def imageSlideEvs (p n : Nat) (t ip : String) : List Ev :=
  logoHeaderEvs p n t ++
  [Ev.newBox (n + 4) (n + 3) NodeKind.fbox
      { horizontal := some true, p_top := some 20, p_bottom := some 20 },
   Ev.newBox (n + 5) (n + 4) NodeKind.fbox
      { name := some "text_area", width := some (Dim.str "50%") },
   Ev.newBox (n + 6) (n + 4) NodeKind.sbox
      { name := some "image", width := some (Dim.str "fill") },
   Ev.leaf (n + 6) (Leaf.image ip)]

/-- The events `section_title_slide parent title subtitle` emits when the
next fresh id is `n`.  Note the header is built with the empty title. -/
def sectionTitleEvs (p n : Nat) (t sub : String) : List Ev :=
  logoHeaderEvs p n "" ++
  [Ev.newBox (n + 4) (n + 3) NodeKind.sbox {},
   Ev.leaf (n + 4)
     (Leaf.text t
       (some { align := some "right", size := some 240, bold := some true })),
   Ev.newBox (n + 5) (n + 3) NodeKind.box {},
   Ev.leaf (n + 5) (Leaf.text sub none)]

/-- The events `code_slide parent title language source` emits when the next
fresh id is `n`. -/
def codeSlideEvs (p n : Nat) (t lang src : String) : List Ev :=
  logoHeaderEvs p n t ++
  [Ev.newBox (n + 4) (n + 3) NodeKind.box
      { y := some (Dim.px 0), width := some (Dim.str "100%"),
        height := some (Dim.str "100%"), p_bottom := some 20 },
   Ev.leaf (n + 4) (Leaf.rect (some "#F6F8FA") (some 20) (some 20)),
   Ev.newBox (n + 5) (n + 4) NodeKind.overlay {},
   Ev.newBox (n + 6) (n + 5) NodeKind.box
      { x := some (Dim.px 0), y := some (Dim.px 0), p_left := some 20,
        p_right := some 20, p_top := some 20, p_bottom := some 20 },
   Ev.leaf (n + 6) (Leaf.code lang src)]


/-! ## Predicates for the frame and layout claims -/

/-- A helper call is frame-preserving for parent `p`: the style registry and
module globals are untouched, prior events are preserved, and every emitted
event attaches either to `p` itself or to a box the call created (an id
allocated between the old and the new `next`). -/
def framePreserving (p : Nat) (s s2 : BState) : Prop :=
  s2.styles = s.styles ∧ s2.globals = s.globals ∧ s.next ≤ s2.next ∧
  ∃ added, s2.events = s.events ++ added ∧
    ∀ e ∈ added,
      e.parentId = p ∨ (s.next ≤ e.parentId ∧ e.parentId < s2.next)

/-- The events contain the PickNik logo box: a box at x=1570, y=40 under `p`
holding the logo image. -/
def HasLogo (p : Nat) (evs : List Ev) : Prop :=
  ∃ b a, Ev.newBox b p NodeKind.box a ∈ evs ∧
    a.x = some (Dim.px 1570) ∧ a.y = some (Dim.px 40) ∧
    Ev.leaf b (Leaf.image (get_image_path "picknik_logo.png")) ∈ evs

/-- The events contain a header box of height 140 under `p` whose padded
inner box holds `title` in bold. -/
def HasHeader (p : Nat) (evs : List Ev) (title : String) : Prop :=
  ∃ h a f af, Ev.newBox h p NodeKind.sbox a ∈ evs ∧
    a.name = some "header" ∧ a.height = some (Dim.px 140) ∧
    Ev.newBox f h NodeKind.fbox af ∈ evs ∧ af.p_left = some 20 ∧
    Ev.leaf f (Leaf.text title (some { bold := some true })) ∈ evs

/-- The events contain a "content" box under `p` with left and right padding
20. -/
def HasContent (p : Nat) (evs : List Ev) : Prop :=
  ∃ c a, Ev.newBox c p NodeKind.fbox a ∈ evs ∧
    a.name = some "content" ∧ a.p_left = some 20 ∧ a.p_right = some 20

/-- The parent box of a box id, read off the events. -/
def boxParent (evs : List Ev) (id : Nat) : Option Nat :=
  (evs.find? fun e =>
      match e with
      | .newBox i _ _ _ => i == id
      | _ => false).bind fun e =>
    match e with
    | .newBox _ p _ _ => some p
    | _ => none

/-- The ancestor chain of a box id (fuel-bounded walk up the parent links). -/
def ancestors (evs : List Ev) : Nat → Nat → List Nat
  | 0, _ => []
  | fuel + 1, id =>
      match boxParent evs id with
      | none => []
      | some p => p :: ancestors evs fuel p

/-- Whether `st` requests bold text. -/
def isBold (st : Option TextStyle) : Bool :=
  match st with
  | some t => t.bold == some true
  | none => false

/-- Decidable form of the claimed header property, in its weakest reading:
some box named "header" of height 140 has, anywhere in its subtree, a text
leaf holding exactly `title` in bold. -/
def headerHoldsTitle (evs : List Ev) (title : String) : Bool :=
  evs.any fun eh =>
    match eh with
    | .newBox h _ NodeKind.sbox a =>
        (a.name == some "header") && (a.height == some (Dim.px 140)) &&
        evs.any fun et =>
          match et with
          | .leaf b (.text c st) =>
              (c == title) && isBold st &&
              ((b == h) || (ancestors evs evs.length b).contains h)
          | _ => false
    | _ => false

/-- Decidable form of the claimed logo property: some box at x=1570, y=40
holds the PickNik logo image. -/
def hasLogoBox (evs : List Ev) : Bool :=
  evs.any fun eh =>
    match eh with
    | .newBox b _ NodeKind.box a =>
        (a.x == some (Dim.px 1570)) && (a.y == some (Dim.px 40)) &&
        evs.any fun et =>
          et == Ev.leaf b (Leaf.image (get_image_path "picknik_logo.png"))
    | _ => false

/-- Decidable form of the claimed content-box property: some "content" box
with left and right padding 20. -/
def hasContentBox (evs : List Ev) : Bool :=
  evs.any fun eh =>
    match eh with
    | .newBox _ _ NodeKind.fbox a =>
        (a.name == some "content") && (a.p_left == some 20) &&
        (a.p_right == some 20)
    | _ => false

/-- Claim C9's property of one slide's events, as stated: logo box, header of
height 140 holding the slide's title in bold, and a padded "content" box. -/
def claimNineHolds (evs : List Ev) (title : String) : Bool :=
  hasLogoBox evs && headerHoldsTitle evs title && hasContentBox evs

/-- The (language, source) pairs of the code leaves among the events, in
order. -/
def codeLeaves (evs : List Ev) : List (String × String) :=
  evs.flatMap fun e =>
    match e with
    | .leaf _ (.code l c) => [(l, c)]
    | _ => []

/-! ## elsie.ext.unordered_list (external library, minimal model)

`unordered_list(parent)` lays its items out in a column box; `item(...)`
adds one bullet item and returns the box the caller writes into.  Bullet
glyph and indentation are the external library's internals and are not
tracked. -/

/-- `unordered_list(parent)` -/
def unordered_list (parent : Nat) (s : BState) : Nat × BState :=
  box parent {} s

/-- `lst.item(show=...)` -/
def item (lst : Nat) (show_ : Option String) (s : BState) : Nat × BState :=
  box lst { show_ := show_ } s

/-! ## slides/roscon23_parameters.py

The script's top-level statements, in textual order: twenty decorated slide
functions (several sharing the Python names `validate` and `gpl`) and the
final render call. -/

def roscon23_stmts : List TopStmt :=
  [TopStmt.defSlide "title" (fun slide s =>
      let (content, s) := logo_header_slide slide "" s
      let (b, s) := box content { width := some (Dim.str "fill") } s
      let s := text b "Parameters Should\nBe Boring"
        (some { size := some 160, bold := some true }) s
      let (b, s) := box content { width := some (Dim.str "fill") } s
      let s := text b "generate_parameter_library"
        (some { size := some 36, bold := some true, italic := some true }) s
      let (b, s) := box content
        { width := some (Dim.str "fill"), p_top := some 10 } s
      let s := text b "October 20, 2023" none s
      let (b, s) := box content
        { width := some (Dim.str "fill"), p_top := some 180 } s
      let s := text b "Tyler Weaver" none s
      let (b, s) := box content { width := some (Dim.str "fill") } s
      text b "Staff Software Engineer\ntyler@picknik.ai" none s),
   TopStmt.defSlide "author" (fun slide s =>
      let (text_area, s) := image_slide slide "Tyler Weaver"
        (get_image_path "kart.jpg") s
      let (lst, s) := unordered_list text_area s
      let (i, s) := item lst none s
      let s := text i "Racing Kart Driver" none s
      let (i, s) := item lst none s
      let s := text i "MoveIt Maintainer" none s
      let (i, s) := item lst none s
      let s := text i "Rust Evangelist" none s
      let (i, s) := item lst none s
      text i "Docker Skeptic" none s),
   TopStmt.defSlide "part_1" (fun slide s =>
      section_title_slide slide "RCLCPP\nParameters" "Part 1" s),
   TopStmt.defSlide "innocence" (fun slide s =>
      grayed_before_after_code_slide slide "Getting Started" "C++"
        "int main(int argc, char ** argv)\n\x7b\n  rclcpp::init(argc, argv);\n\n  auto node = std::make_shared<rclcpp::Node>(\"minimal_param_node\");\n"
        "\n  auto my_string = node->declare_parameter(\"my_string\", \"world\");\n  auto my_number = node->declare_parameter(\"my_number\", 23);\n"
        "\n  rclcpp::spin(node);\n  rclcpp::shutdown();\n\x7d\n"
        s),
   TopStmt.defSlide "struct_with_defaults" (fun slide s =>
      code_slide slide "Parameter Struct" "C++"
        "\nstruct Params \x7b\n  std::string my_string = \"world\";\n  int my_number = 23;\n\x7d;\n\nint main(int argc, char ** argv)\n\x7b\n  rclcpp::init(argc, argv);\n  auto node = std::make_shared<rclcpp::Node>(\"minimal_param_node\");\n  auto params = Params\x7b\x7d;\n  params.my_string = node->declare_parameter(\"my_string\", params.my_string);\n  params.my_number = node->declare_parameter(\"my_number\", params.my_number);\n\n  rclcpp::spin(node);\n  rclcpp::shutdown();\n\x7d\n"
        s),
   TopStmt.defSlide "details" (fun slide s =>
      code_slide slide "ParameterDescriptor" "C++"
        "\nint main(int argc, char ** argv)\n\x7b\n  rclcpp::init(argc, argv);\n  auto node = std::make_shared<rclcpp::Node>(\"minimal_param_node\");\n  auto params = Params\x7b\x7d;\n\n  auto param_desc  = rcl_interfaces::msg::ParameterDescriptor\x7b\x7d;\n  param_desc.description = \"Mine!\";\n  param_desc.additional_constraints  = \"One of [world, base, home]\";\n  params.my_string = node->declare_parameter(\"my_string\",\n    params.my_string, param_desc);\n\n  param_desc  = rcl_interfaces::msg::ParameterDescriptor\x7b\x7d;\n  param_desc.description = \"Who controls the universe?\";\n  param_desc.additional_constraints  = \"A multiple of 23\";\n  params.my_number = node->declare_parameter(\"my_number\",\n    params.my_number, param_desc);\n  //...\n"
        s),
   TopStmt.defSlide "validate" (fun slide s =>
      code_slide slide "Validation" "C++"
        "\nauto const _ = node->add_on_set_parameters_callback(\n  [](std::vector<rclcpp::Parameter> const& params)\n  \x7b\n    for (auto const& param : params) \x7b\n      if(param.get_name() == \"my_string\") \x7b\n          auto const value = param.get_value<std::string>();\n          auto const valid = std::vector<std::string>\x7b\"world\", \"base\", \"home\"\x7d;\n          if (std::find(valid.cbegin(), valid.cend(), value) == valid.end()) \x7b\n            auto result = rcl_interfaces::msg::SetParametersResult\x7b\x7d;\n            result.successful = false;\n            result.reason = std::string(\"my_string: \x7b\")\n              .append(value)\n              .append(\"\x7d not one of: [world, base, home]\");\n            return result;\n          \x7d\n        \x7d\n      \x7d\n    return rcl_interfaces::msg::SetParametersResult\x7b\x7d;\n  \x7d);\n"
        s),
   TopStmt.defSlide "copy_pasta" (fun slide s =>
      let (content, s) := logo_header_slide slide "Copy Pasta" s
      let (b, s) := box content {} s
      let (lst, s) := unordered_list b s
      let (i, s) := item lst none s
      let s := text i "parameter name: 6 separate copies" none s
      let (i, s) := item lst none s
      let s := text i "declaration: re-init description for each parameter" none s
      let (i, s) := item lst none s
      text i "validation: convert vector to map" none s),
   TopStmt.defSlide "validate" (fun slide s =>
      let (content, s) := logo_header_slide slide "" s
      let (b, s) := box content {} s
      let s := text b "30 lines of C++ boilderpate per parameter" none s
      let (b, s) := box content { show_ := some "2" } s
      text b "Before handling of dynamic parameters"
        (some { color := some "red" }) s),
   TopStmt.defSlide "part2" (fun slide s =>
      section_title_slide slide "generate_\nparameter_library" "Part 2" s),
   TopStmt.defSlide "gpl" (fun slide s =>
      code_slide slide "YAML" "toml"
        "\nminimal_param_node:\n    my_string: \x7b\n        type: string,\n        description: \"Mine!\"\n        validation: \x7b\n            one_of<>: [[\"world\", \"base\", \"home\"]]\n        \x7d\n    \x7d\n    my_number: \x7b\n        type: int\n        description: \"Mine!\"\n        validation: \x7b\n            multiple_of_23: []\n        \x7d\n    \x7d\n"
        s),
   TopStmt.defSlide "gpl" (fun slide s =>
      code_slide slide "CMake Module" "cmake"
        "\nfind_package(generate_parameter_library REQUIRED)\n\ngenerate_parameter_library(\n  minimal_param_node_parameters\n  src/minimal_param_node.yaml\n)\n\nadd_executable(minimal_node src/minimal_param_node.cpp)\ntarget_link_libraries(minimal_node PRIVATE\n  rclcpp::rclcpp\n  minimal_param_node_parameters\n)\n"
        s),
   TopStmt.defSlide "gpl" (fun slide s =>
      code_slide slide "C++ Usage" "C++"
        "\n#include <rclcpp/rclcpp.hpp>\n#include \"minimal_param_node_parameters.hpp\"\n\nint main(int argc, char * argv[])\n\x7b\n  rclcpp::init(argc, argv);\n  auto node = std::make_shared<rclcpp::Node>(\"minimal_param_node\");\n  auto param_listener =\n    std::make_shared<minimal_param_node::ParamListener>(node);\n  auto params = param_listener->get_params();\n\n  // ...\n"
        s),
   TopStmt.defSlide "gpl" (fun slide s =>
      let (content, s) := logo_header_slide slide "Built-In Validation Functions" s
      let (lst, s) := unordered_list content s
      let (i, s) := item lst none s
      let s := text i "bounds (inclusive)" none s
      let (i, s) := item lst none s
      let s := text i "less than" none s
      let (i, s) := item lst none s
      let s := text i "greater than" none s
      let (i, s) := item lst none s
      let s := text i "less than or equal" none s
      let (i, s) := item lst none s
      let s := text i "greater than or equal" none s
      let (i, s) := item lst (some "2") s
      let s := text i "fixed string/array length" none s
      let (i, s) := item lst (some "2") s
      let s := text i "size of string/array length greater than" none s
      let (i, s) := item lst (some "2") s
      let s := text i "size of string/array length less than" none s
      let (i, s) := item lst (some "2") s
      let s := text i "array contains no duplicates" none s
      let (i, s) := item lst (some "2") s
      let s := text i "array is a subset of another array" none s
      let (i, s) := item lst (some "2") s
      text i "bounds checking for elements of an array" none s),
   TopStmt.defSlide "gpl" (fun slide s =>
      code_slide slide "Custom Validation" "C++"
        "\n#include <rclcpp/rclcpp.hpp>\n#include <fmt/core.h>\n#include <tl_expected/expected.hpp>\n\ntl::expected<void, std::string> multiple_of_23(\n    rclcpp::Parameter const& parameter) \x7b\n  int param_value = parameter.as_int();\n    if (param_value % 23 != 0) \x7b\n        return tl::make_unexpected(fmt::format(\n            \"Invalid value \x27\x7b\x7d\x27 for parameter \x7b\x7d. Must be multiple of 23.\",\n            param_value, parameter.get_name());\n    \x7d\n  return \x7b\x7d;\n\x7d\n"
        s),
   TopStmt.defSlide "gpl" (fun slide s =>
      let (content, s) := logo_header_slide slide "Other Killer Features" s
      let (b, s) := box content {} s
      let (lst, s) := unordered_list b s
      let (i, s) := item lst none s
      let s := text i "Dynamic parameters" none s
      let (i, s) := item lst none s
      let s := text i "Generation of RCLPY Parameter Libraries" none s
      let (i, s) := item lst none s
      let s := text i "Generation of Markdown Docs" none s
      let (i, s) := item lst none s
      text i "Examples and docs at\n~link\x7bgithub.com/PickNikRobotics/generate_parameter_library\x7d" none s),
   TopStmt.defSlide "part3" (fun slide s =>
      section_title_slide slide "Boring?" "Part 3" s),
   TopStmt.defSlide "gpl" (fun slide s =>
      let (content, s) := logo_header_slide slide "Why so many parameters?" s
      let (b, s) := box content {} s
      let (lst, s) := unordered_list b s
      let (i, s) := item lst none s
      let s := text i "Users use defaults for most parameters" none s
      let (i, s) := item lst (some "2+") s
      let s := text i "Authors only test default values" none s
      let (i, s) := item lst (some "3+") s
      let s := text i "Permutations of parameters grow exponentially" none s
      let (i, s) := item lst (some "4+") s
      let s := text i "The more complex your interface the less useful your abstraction" none s
      let (i, s) := item lst (some "5+") s
      text i "Resist the urge to expose interior details as parameters" none s),
   TopStmt.defSlide "gpl" (fun slide s =>
      let (content, s) := logo_header_slide slide "What is a good parameter?" s
      let (b, s) := box content {} s
      let (lst, s) := unordered_list b s
      let (i, s) := item lst none s
      let s := text i "Express user intent (latency or throughput)" none s
      let (i, s) := item lst (some "2+") s
      let s := text i "Details like buffer sizes scale with hardware" none s
      let (i, s) := item lst (some "3+") s
      text i "Leave the door open to improvements in behavior for the user" none s),
   TopStmt.defSlide "thank_you" (fun slide s =>
      let (content, s) := logo_header_slide slide "" s
      let (b, s) := fbox content {} s
      let s := text b "Questions?\n~link\x7bgithub.com/PickNikRobotics/generate_parameter_library\x7d\n"
        (some { align := some "middle" }) s
      let (b, s) := sbox content { p_bottom := some 20 } s
      text b "Slides generated using Elsie\n~link\x7btylerjw.dev/roscon23-parameters/\x7d"
        (some { align := some "right", size := some 32 }) s),
   TopStmt.render "roscon23_parameters.pdf" none]

/-- The roscon23_parameters.py run: `slides = init_deck()` followed by the
script's top-level statements. -/
def roscon23_run : SlideDeck × List RenderOutput :=
  runStmts (init_deck none) roscon23_stmts

/-- The deck roscon23_parameters.py builds. -/
def roscon23_deck : SlideDeck :=
  roscon23_run.1

/-! ## slides/rust_cpp_interop.py

The script's top-level statements, in textual order: twenty-six decorated
slide functions and the final render call, which passes `my_page_numbering`
as the page-numbering function. -/

def rust_cpp_interop_stmts : List TopStmt :=
  [TopStmt.defSlide "title" (fun slide s =>
      let (content, s) := logo_header_slide slide "" s
      let (b, s) := box content { width := some (Dim.str "fill") } s
      let s := text b "Rust/C++ Interop"
        (some { size := some 160, bold := some true }) s
      let (b, s) := box content { width := some (Dim.str "fill") } s
      let s := text b "Boulder Rust Meetup"
        (some { size := some 36, bold := some true, italic := some true }) s
      let (b, s) := box content
        { width := some (Dim.str "fill"), p_top := some 10 } s
      let s := text b "February 7, 2024" none s
      let (b, s) := box content
        { width := some (Dim.str "fill"), p_top := some 180 } s
      let s := text b "Tyler Weaver" none s
      let (b, s) := box content { width := some (Dim.str "fill") } s
      text b "Staff Software Engineer\nmaybe@tylerjw.dev" none s),
   TopStmt.defSlide "author" (fun slide s =>
      let (text_area, s) := text_slide slide "Tyler Weaver" s
      let (lst, s) := unordered_list text_area s
      let (i, s) := item lst none s
      let s := text i "Regular C++ Programmer" none s
      let (i, s) := item lst none s
      let s := text i "Rust Cult Member" none s
      let (i, s) := item lst none s
      let s := text i "Open-source Robotcist" none s
      let (i, s) := item lst none s
      text i "Wrote a Rust Library with C++ Bindings" none s),
   TopStmt.defSlide "prefix" (fun slide s =>
      let (text_area, s) := text_slide slide "Prefix" s
      let (lst, s) := unordered_list text_area s
      let (i, s) := item lst none s
      let s := text i "No AI generation tools were used" none s
      let (i, s) := item lst none s
      text i "Slides and more at ~link\x7btylerjw.dev\x7d" none s),
   TopStmt.defSlide "why" (fun slide s =>
      let (text_area, s) := text_slide slide "What Are We Going To Cover" s
      let (lst, s) := unordered_list text_area s
      let (i, s) := item lst none s
      let s := text i "Social Objections to Rust" none s
      let (i, s) := item lst none s
      let s := text i "Details of Interop" none s
      let (i, s) := item lst none s
      let s := text i "Examples of Useful Patterns" none s
      let (i, s) := item lst none s
      text i "Code Generation Tools" none s),
   TopStmt.defSlide "why" (fun slide s =>
      let (text_area, s) := text_slide slide "A Collective Craft" s
      let (lead, s) := sbox text_area { p_bottom := some 40 } s
      let s := text lead "Quality of your project has more to do with the people\nthat build it than the tools selected. It is fine\nand good for the people to like their tools."
        (some { align := some "middle" }) s
      let (b, s) := box text_area {} s
      let (lst, s) := unordered_list b s
      let (i, s) := item lst none s
      let s := text i "C++ code that exists has value" none s
      let (i, s) := item lst none s
      text i "A little Rust is better than no Rust" none s),
   TopStmt.defSlide "why" (fun slide s =>
      let (text_area, s) := text_slide slide "After Action Report" s
      let (b, s) := sbox text_area { p_bottom := some 40 } s
      let s := text b "Coworker wrote this about writing a Rust project."
        (some { align := some "middle", bold := some true }) s
      let (b, s) := box text_area {} s
      let (lst, s) := unordered_list b s
      let (i, s) := item lst none s
      let s := text i "It was quick! (2 engineers took 5 days)" none s
      let (i, s) := item lst none s
      let s := text i "Cargo was a pleasure to work with." none s
      let (i, s) := item lst none s
      let s := text i "It really helps focusing on the code instead\n  of dependencies / build rules." none s
      let (i, s) := item lst none s
      let s := text i "Going back to cmake / ament feels miserable." none s
      let (i, s) := item lst none s
      let s := text i "Builds are super quick." none s
      let (i, s) := item lst none s
      let s := text i "Compiler errors are helpful." none s
      let (i, s) := item lst none s
      let s := text i "Great vscode integration." none s
      let (i, s) := item lst none s
      text i "Safe, modern and efficient at the core." none s),
   TopStmt.defSlide "first_class_types" (fun slide s =>
      let code_bg := "#EAEAEA"
      let (text_area, s) := text_slide slide "Is this Possible?" s
      let (b, s) := sbox text_area { p_bottom := some 40 } s
      let s := text b "Rust"
        (some { align := some "middle", bold := some true }) s
      let (code_block_1, s) := sbox text_area
        { name := some "code_block_1", width := some (Dim.str "100%"),
          z_level := some (-1) } s
      let s := rect code_block_1 (some code_bg) (some 20) (some 20) s
      let (cb, s) := box code_block_1
        { z_level := some 0, p_left := some 20, p_right := some 20,
          p_top := some 20, p_bottom := some 20,
          width := some (Dim.str "100%") } s
      let s := code cb "Rust" "let joint = Joint::new();\nlet transform = joint.calculate_transform(&[1.5]);\n" s
      let (b, s) := sbox text_area { p_top := some 60, p_bottom := some 40 } s
      let s := text b "C++"
        (some { align := some "middle", bold := some true }) s
      let (code_block_2, s) := sbox text_area
        { name := some "code_block_2", width := some (Dim.str "100%"),
          z_level := some (-1) } s
      let s := rect code_block_2 (some code_bg) (some 20) (some 20) s
      let (cb, s) := box code_block_2
        { z_level := some 0, p_left := some 20, p_right := some 20,
          p_top := some 20, p_bottom := some 20,
          width := some (Dim.str "100%") } s
      code cb "C++" "Joint joint();\nEigen::Isometry3d transform = joint.calculate_transform(Eigen::VectorXd(\x7b1.5\x7d));\n" s),
   TopStmt.defSlide "bridge" (fun slide s =>
      full_image_slide slide "Golden Gate Bridge"
        (get_image_path "GoldenGateBridge.jpg") s),
   TopStmt.defSlide "other_info" (fun slide s =>
      let (text_area, s) := text_slide slide "Before We Begin" s
      let (b, s) := sbox text_area { p_bottom := some 40 } s
      let s := text b "Code Generators"
        (some { align := some "middle", bold := some true }) s
      let (b, s) := box text_area {} s
      let (lst, s) := unordered_list b s
      let (i, s) := item lst none s
      let s := text i "cxx – Safe interop between Rust and C++" none s
      let (i, s) := item lst none s
      let s := text i "bindgen – generate Rust FFI to C/C++ headers" none s
      let (i, s) := item lst none s
      let s := text i "cbindgen – generate C headers for Rust FFI" none s
      let (b, s) := sbox text_area { p_top := some 60, p_bottom := some 40 } s
      let s := text b "Why Not"
        (some { align := some "middle", bold := some true }) s
      let (b, s) := box text_area {} s
      let (lst, s) := unordered_list b s
      let (i, s) := item lst none s
      text i "Eigen C++ types <=> Nalgebra Rust types" none s),
   TopStmt.defSlide "bridge" (fun slide s =>
      full_image_slide slide "Hourglass Language Bridge"
        (get_image_path "hourglass_rust_cpp.png") s),
   TopStmt.defSlide "layout" (fun slide s =>
      code_slide slide "Project Layout" ""
        "├── Cargo.toml\n├── README.md\n└── crates\n    ├── robot_joint\n    │\xa0\xa0 ├── Cargo.toml\n    │\xa0\xa0 └── src\n    │\xa0\xa0     └── lib.rs\n"
        s),
   TopStmt.defSlide "layout" (fun slide s =>
      code_slide slide "Project Layout" ""
        "├── Cargo.toml\n├── README.md\n└── crates\n    ├── robot_joint\n    │\xa0\xa0 ├── Cargo.toml\n    │\xa0\xa0 └── src\n    │\xa0\xa0     └── lib.rs\n    └── robot_joint-cpp\n        ├── Cargo.toml\n        ├── CMakeLists.txt\n        ├── cmake\n        │\xa0\xa0 └── robot_jointConfig.cmake.in\n        ├── include\n        │\xa0\xa0 └── robot_joint.hpp\n        └── src\n            ├── lib.cpp\n            └── lib.rs\n"
        s),
   TopStmt.defSlide "bridge" (fun slide s =>
      full_image_slide slide "Zakim Bridge" (get_image_path "Zakimbridge.jpg") s),
   TopStmt.defSlide "opaque_types" (fun slide s =>
      code_slide slide "robot_joint/src/lib.rs" "Rust"
        "pub struct Joint \x7b\n    name: String,\n    parent_link_to_joint_origin: Isometry3<f64>,\n\x7d\n\nimpl Joint \x7b\n    pub fn new() -> Self;\n\x7d\n"
        s),
   TopStmt.defSlide "opaque_types" (fun slide s =>
      code_slide slide "robot_joint-cpp/src/lib.rs" "Rust"
        "use robot_joint::Joint;\n\n#[no_mangle]\nextern \"C\" fn robot_joint_new() -> *mut Joint \x7b\n    Box::into_raw(Box::new(Joint::new()))\n\x7d\n\n#[no_mangle]\nextern \"C\" fn robot_joint_free(joint: *mut Joint) \x7b\n    unsafe \x7b\n        drop(Box::from_raw(joint));\n    \x7d\n\x7d\n"
        s),
   TopStmt.defSlide "opaque_types" (fun slide s =>
      code_slide slide "robot_joint-cpp/include/robot_joint.hpp" "C++"
        "struct RustJoint;\n\nclass Joint \x7b\n  public:\n    Joint();\n    ~Joint();\n\n    // Disable copy as we cannot safely copy opaque pointers to rust objects.\n    Joint(Joint& other) = delete;\n    Joint& operator=(Joint& other) = delete;\n\n    // Explicit move.\n    Joint(Joint&& other);\n    Joint& operator=(Joint&& other);\n\n  private:\n    RustJoint* joint_ = nullptr;\n\x7d;\n"
        s),
   TopStmt.defSlide "opaque_types" (fun slide s =>
      code_slide slide "robot_joint-cpp/src/lib.cpp" "C++"
        "#include \"robot_joint.hpp\"\n\nextern \"C\" \x7b\nextern RustJoint* robot_joint_new();\nextern void robot_joint_free(RustJoint*);\n\x7d\n"
        s),
   TopStmt.defSlide "opaque_types" (fun slide s =>
      code_slide slide "robot_joint-cpp/src/lib.cpp" "C++"
        "Joint::Joint() : joint_(robot_joint_new()) \x7b\x7d\n\nJoint::~Joint() \x7b\n  if (joint_ != nullptr) \x7b\n    robot_joint_free(joint_);\n  \x7d\n\x7d\n\nJoint::Joint(Joint&& other) : joint_(other.joint_) \x7b\n  other.joint_ = nullptr;\n\x7d\n\nJoint& Joint::operator=(Joint&& other) \x7b\n  joint_ = other.joint_;\n  other.joint_ = nullptr;\n  return *this;\n\x7d\n"
        s),
   TopStmt.defSlide "other_info" (fun slide s =>
      let (text_area, s) := text_slide slide "Build System Integration" s
      let (b, s) := sbox text_area { p_bottom := some 40 } s
      text b "See My Blog for a link to CMake example\n~link\x7btylerjw.dev\x7d"
        (some { align := some "middle", bold := some true }) s),
   TopStmt.defSlide "bridge" (fun slide s =>
      full_image_slide slide "Fremont Bridge"
        (get_image_path "Fremont_Bridge_Portland_Oregon.jpg") s),
   TopStmt.defSlide "first_class_types" (fun slide s =>
      let code_bg := "#EAEAEA"
      let (text_area, s) := text_slide slide "First-class Types" s
      let (b, s) := sbox text_area { p_bottom := some 40 } s
      let s := text b "robot_joint/src/lib.rs"
        (some { align := some "middle", bold := some true }) s
      let (code_block_1, s) := sbox text_area
        { name := some "code_block_1", width := some (Dim.str "100%"),
          z_level := some (-1) } s
      let s := rect code_block_1 (some code_bg) (some 20) (some 20) s
      let (cb, s) := box code_block_1
        { z_level := some 0, p_left := some 20, p_right := some 20,
          p_top := some 20, p_bottom := some 20 } s
      let s := code cb "Rust" "impl Joint \x7b\n    pub fn calculate_transform(&self, variables: &[f64]) -> Isometry3<f64>;\n\x7d\n" s
      let (b, s) := sbox text_area { p_top := some 60, p_bottom := some 40 } s
      let s := text b "robot_joint-cpp/include/robot_joint.hpp"
        (some { align := some "middle", bold := some true }) s
      let (code_block_2, s) := sbox text_area
        { name := some "code_block_2", width := some (Dim.str "100%"),
          z_level := some (-1) } s
      let s := rect code_block_2 (some code_bg) (some 20) (some 20) s
      let (cb, s) := box code_block_2
        { z_level := some 0, p_left := some 20, p_right := some 20,
          p_top := some 20, p_bottom := some 20 } s
      code cb "C++" "class Joint \x7b\n  public:\n    Eigen::Isometry3d calculate_transform(const Eigen::VectorXd& variables);\n\x7d;\n" s),
   TopStmt.defSlide "first_class_types" (fun slide s =>
      code_slide slide "robot_joint-cpp/src/lib.rs" "Rust"
        "#[repr(C)]\nstruct Mat4d \x7b\n    data: [c_double; 16],\n\x7d\n\n#[no_mangle]\nextern \"C\" fn robot_joint_calculate_transform(\n    joint: *const Joint,\n    variables: *const c_double,\n    size: c_uint,\n) -> Mat4d \x7b\n    unsafe \x7b\n        let joint = joint.as_ref().expect(\"Invalid pointer to Joint\");\n        let variables = std::slice::from_raw_parts(variables, size as usize);\n        let transform = joint.calculate_transform(variables);\n        Mat4d \x7b\n            data: transform.to_matrix().as_slice().try_into().unwrap(),\n        \x7d\n    \x7d\n\x7d\n"
        s),
   TopStmt.defSlide "first_class_types" (fun slide s =>
      code_slide slide "robot_joint-cpp/src/lib.cpp" "C++"
        "struct Mat4d \x7b\n  double data[16];\n\x7d;\n\nextern \"C\" \x7b\nextern struct Mat4d robot_joint_calculate_transform(\n  const RustJoint*, const double*, unsigned int);\n\x7d\n\nEigen::Isometry3d Joint::calculate_transform(const Eigen::VectorXd& variables)\n\x7b\n  const auto rust_isometry = robot_joint_calculate_transform(\n    joint_, variables.data(), variables.size());\n  Eigen::Isometry3d transform;\n  transform.matrix() = Eigen::Map<Eigen::Matrix4d>(rust_isometry.data);\n  return transform;\n\x7d\n"
        s),
   TopStmt.defSlide "bridge" (fun slide s =>
      full_image_slide slide "Red Cliff Bridge"
        (get_image_path "Redcliff_bridge_2006.jpg") s),
   TopStmt.defSlide "so_what" (fun slide s =>
      let (text_area, s) := text_slide slide "So What?" s
      let (b, s) := sbox text_area { p_bottom := some 40 } s
      text b "Rust / C++ Interop is Straightforward\nDon’t Listen to the Naysayers"
        (some { align := some "middle", bold := some true }) s),
   TopStmt.defSlide "creddits" (fun slide s =>
      let (text_area, s) := text_slide slide "Attribution" s
      let (b, s) := sbox text_area { p_bottom := some 40 } s
      text b "Kyle Cesare\x27s OptIk\n~link\x7bgithub.com/kylc/optik\x7d"
        (some { align := some "middle", bold := some true }) s),
   TopStmt.render "rust_cpp_interop.pdf" (some my_page_numbering)]

/-- The rust_cpp_interop.py run: `slides = init_deck(font="Noto Sans")`
followed by the script's top-level statements. -/
def rust_cpp_interop_run : SlideDeck × List RenderOutput :=
  runStmts (init_deck (some "Noto Sans")) rust_cpp_interop_stmts

/-- The deck rust_cpp_interop.py builds (before page numbering, which the
render call applies). -/
def rust_cpp_interop_deck : SlideDeck :=
  rust_cpp_interop_run.1

/-- Every style name used by any slide of the deck is registered in the
deck's style registry. -/
def deckStylesDefined (d : SlideDeck) : Bool :=
  d.slides.all fun sl =>
    (slideUsedStyleNames sl).all fun n => (styleNames d).contains n

/-- Every style name used by any rendered page is among the registered
names. -/
def outputStylesDefined (registered : List String) (o : RenderOutput) : Bool :=
  o.pages.all fun sl =>
    (slideUsedStyleNames sl).all fun n => registered.contains n

/-- The layout invariant a helper establishes on the events it leaves
behind: the PickNik logo box, a header of height 140 holding `headerTitle`
in bold, a padded "content" box, and every event past the header prefix
attached inside the content subtree (to the content box `next0 + 3` or to a
box created after it). -/
def LayoutFrame (p next0 : Nat) (headerTitle : String) (evs0 evs : List Ev)
    (next1 : Nat) : Prop :=
  HasLogo p evs ∧ HasHeader p evs headerTitle ∧ HasContent p evs ∧
  ∃ rest, evs = evs0 ++ logoHeaderEvs p next0 headerTitle ++ rest ∧
    ∀ e ∈ rest, next0 + 3 ≤ e.parentId ∧ e.parentId < next1

/-! ## Helper equations and lemmas -/

theorem logo_header_slide_eq (p : Nat) (t : String) (s : BState) :
    logo_header_slide p t s =
      (s.next + 3,
       { s with
          next := s.next + 4
          events := s.events ++ logoHeaderEvs p s.next t }) := by
  cases s
  simp [logo_header_slide, box, sbox, fbox, newBox, addLeaf, text, image,
    logoHeaderEvs, Nat.add_assoc]

theorem image_slide_eq (p : Nat) (t ip : String) (s : BState) :
    image_slide p t ip s =
      (s.next + 5,
       { s with
          next := s.next + 7
          events := s.events ++ imageSlideEvs p s.next t ip }) := by
  cases s
  simp [image_slide, logo_header_slide, box, sbox, fbox, newBox, addLeaf,
    text, image, imageSlideEvs, logoHeaderEvs, Nat.add_assoc]

theorem section_title_slide_eq (p : Nat) (t sub : String) (s : BState) :
    section_title_slide p t sub s =
      { s with
          next := s.next + 6
          events := s.events ++ sectionTitleEvs p s.next t sub } := by
  cases s
  simp [section_title_slide, logo_header_slide, box, sbox, fbox, newBox,
    addLeaf, text, image, sectionTitleEvs, logoHeaderEvs, Nat.add_assoc]

theorem code_slide_eq (p : Nat) (t lang src : String) (s : BState) :
    code_slide p t lang src s =
      { s with
          next := s.next + 7
          events := s.events ++ codeSlideEvs p s.next t lang src } := by
  cases s
  simp [code_slide, logo_header_slide, box, sbox, fbox, overlay, newBox,
    addLeaf, text, image, rect, code, codeSlideEvs, logoHeaderEvs,
    Nat.add_assoc]


theorem mem_toDigitsCore_ten (f : Nat) :
    ∀ (n : Nat) (l : List Char) (c : Char), c ∈ Nat.toDigitsCore 10 f n l →
      c ∈ l ∨ ∃ k, k < 10 ∧ c = Nat.digitChar k := by
  induction f with
  | zero =>
    intro n l c h
    simp only [Nat.toDigitsCore] at h
    exact Or.inl h
  | succ f ih =>
    intro n l c h
    simp only [Nat.toDigitsCore] at h
    by_cases hd : n / 10 = 0
    · rw [if_pos hd] at h
      rcases List.mem_cons.mp h with rfl | h2
      · exact Or.inr ⟨n % 10, Nat.mod_lt _ (by omega), rfl⟩
      · exact Or.inl h2
    · rw [if_neg hd] at h
      rcases ih (n / 10) (Nat.digitChar (n % 10) :: l) c h with h2 | h2
      · rcases List.mem_cons.mp h2 with rfl | h3
        · exact Or.inr ⟨n % 10, Nat.mod_lt _ (by omega), rfl⟩
        · exact Or.inl h3
      · exact Or.inr h2

theorem digitChar_clean (k : Nat) (hk : k < 10) :
    Nat.digitChar k ≠ '~' ∧ Nat.digitChar k ≠ obrace ∧
      Nat.digitChar k ≠ cbrace := by
  interval_cases k <;> refine ⟨by decide, by decide, by decide⟩

theorem repr_clean (m : Nat) :
    ∀ c ∈ (toString m).data, c ≠ '~' ∧ c ≠ obrace ∧ c ≠ cbrace := by
  intro c hc
  have hc2 : c ∈ Nat.toDigitsCore 10 (m + 1) m [] := hc
  rcases mem_toDigitsCore_ten (m + 1) m [] c hc2 with h | ⟨k, hk, rfl⟩
  · simp at h
  · exact digitChar_clean k hk

theorem stripAux_append_clean (l1 l2 : List Char)
    (h : ∀ c ∈ l1, c ≠ '~' ∧ c ≠ obrace ∧ c ≠ cbrace) :
    stripAux false (l1 ++ l2) = l1 ++ stripAux false l2 := by
  induction l1 with
  | nil => rfl
  | cons c tl ih =>
    have hc := h c (List.mem_cons_self c tl)
    simp only [List.cons_append, stripAux, if_neg hc.1, if_neg hc.2.2]
    exact congrArg _ (ih fun d hd => h d (List.mem_cons_of_mem c hd))

theorem stripAux_mid (r : List Char) :
    stripAux false ((" ~grayed_text\x7bof ").data ++ r) =
      (" of ").data ++ stripAux false r := rfl

theorem stripMarkup_pageText (i n : Nat) :
    stripMarkup (pageText i n) = toString (i + 1) ++ " of " ++ toString n := by
  apply String.ext
  show stripAux false (pageText i n).data =
    (toString (i + 1) ++ " of " ++ toString n).data
  simp only [pageText, String.data_append, List.append_assoc]
  rw [stripAux_append_clean _ _ (repr_clean (i + 1)), stripAux_mid,
    stripAux_append_clean _ _ (repr_clean n)]
  simp
  decide

/-! ## The claims -/

/-- Claim C4: for every filename string `f`, `get_image_path f` returns the
concatenation "../../static/images/" ++ f — image asset paths are always
resolved relative to the single fixed static directory. -/
theorem get_image_path_concatenates_fixed_static_dir :
    ∀ f : String, get_image_path f = "../../static/images/" ++ f :=
  fun _ => rfl

/-- Claim C5: `init_slides` returns a deck of width 1920 and height 1080
whose style registry maps "default" to font "Lato", align "left", size 64,
"code" to size 38 and "link" to color "blue"; it registers nothing else, adds
no slide, and (being a pure value of the model) performs no other observable
effect. -/
theorem init_slides_builds_styled_deck :
    init_slides.width = 1920 ∧ init_slides.height = 1080 ∧
    init_slides.lookupStyle "default" =
      some { font := some "Lato", align := some "left", size := some 64 } ∧
    init_slides.lookupStyle "code" = some { size := some 38 } ∧
    init_slides.lookupStyle "link" = some { color := some "blue" } ∧
    init_slides.slides = [] ∧
    styleNames init_slides = ["default", "code", "link"] :=
  ⟨rfl, rfl, rfl, rfl, rfl, rfl, rfl⟩

/-- Claim C1: each script runs to completion in the model — every layout
name it calls (`init_deck`, `render_deck`, `text_slide`, `full_image_slide`,
`grayed_before_after_code_slide`, all modelled above) is a defined function
and evaluation is total — and produces exactly one document, at the fixed
output path of its final render call, with a non-empty page list (20 pages
for roscon23_parameters, 26 for rust_cpp_interop). -/
theorem scripts_render_nonempty_pdf_at_fixed_paths :
    roscon23_run.2.map RenderOutput.path = ["roscon23_parameters.pdf"] ∧
    roscon23_run.2.map (fun o => o.pages.length) = [20] ∧
    rust_cpp_interop_run.2.map RenderOutput.path = ["rust_cpp_interop.pdf"] ∧
    rust_cpp_interop_run.2.map (fun o => o.pages.length) = [26] :=
  ⟨rfl, rfl, rfl, rfl⟩

/-- Claim C3: slides appear in the rendered output in exactly the order
their decorated slide functions appear in the script text; repeated Python
names (`gpl` eight times, `validate` twice) each contribute their own slide
in declaration order, and rendering preserves the deck order. -/
theorem slides_render_in_declaration_order :
    roscon23_deck.slides.map Slide.name =
      ["title", "author", "part_1", "innocence", "struct_with_defaults",
       "details", "validate", "copy_pasta", "validate", "part2", "gpl", "gpl",
       "gpl", "gpl", "gpl", "gpl", "part3", "gpl", "gpl", "thank_you"] ∧
    (roscon23_deck.slides.map Slide.name).count "gpl" = 8 ∧
    (roscon23_deck.slides.map Slide.name).count "validate" = 2 ∧
    roscon23_run.2.map (fun o => o.pages.map Slide.name) =
      [roscon23_deck.slides.map Slide.name] ∧
    rust_cpp_interop_deck.slides.map Slide.name =
      ["title", "author", "prefix", "why", "why", "why", "first_class_types",
       "bridge", "other_info", "bridge", "layout", "layout", "bridge",
       "opaque_types", "opaque_types", "opaque_types", "opaque_types",
       "opaque_types", "other_info", "bridge", "first_class_types",
       "first_class_types", "first_class_types", "bridge", "so_what",
       "creddits"] ∧
    rust_cpp_interop_run.2.map (fun o => o.pages.map Slide.name) =
      [rust_cpp_interop_deck.slides.map Slide.name] :=
  ⟨rfl, rfl, rfl, rfl, rfl, rfl⟩

/-- Claim C7: in each script every top-level statement before the last
writes no file, the last statement is the render call writing the script's
fixed output path, and a run produces exactly that one output file. -/
theorem render_call_is_only_file_write :
    roscon23_stmts.dropLast.flatMap stmtWrites = [] ∧
    roscon23_stmts.getLast?.map stmtWrites = some ["roscon23_parameters.pdf"] ∧
    roscon23_run.2.map RenderOutput.path = ["roscon23_parameters.pdf"] ∧
    rust_cpp_interop_stmts.dropLast.flatMap stmtWrites = [] ∧
    rust_cpp_interop_stmts.getLast?.map stmtWrites =
      some ["rust_cpp_interop.pdf"] ∧
    rust_cpp_interop_run.2.map RenderOutput.path = ["rust_cpp_interop.pdf"] :=
  ⟨rfl, rfl, rfl, rfl, rfl, rfl⟩

/-- Claim C6: the helpers validate nothing — `get_image_path` accepts any
filename without existence checks, and `code_slide` passes any language
identifier and code string through to the library's code call unchanged and
exactly once; in particular the YAML snippet deliberately tagged "toml"
reaches the code call with that tag. -/
theorem helpers_validate_nothing :
    (∀ f : String, get_image_path f = "../../static/images/" ++ f) ∧
    (∀ (p : Nat) (t lang src : String) (s : BState),
      codeLeaves (code_slide p t lang src s).events =
        codeLeaves s.events ++ [(lang, src)]) ∧
    (codeLeaves (roscon23_deck.slides.getD 10 emptySlide).events).map
      Prod.fst = ["toml"] := by
  refine ⟨fun _ => rfl, ?_, rfl⟩
  intro p t lang src s
  rw [code_slide_eq]
  simp [codeLeaves, codeSlideEvs, logoHeaderEvs, List.flatMap_append]

/-- Claim C2: every style name used by any slide of either deck — the
"default" style of every text, the "code" style of every code block, and the
inline markup styles "link" and "grayed_text" (the latter used by the page
numbering applied at render time) — is registered on the deck, and the
registry a slide sees is exactly the one `init_deck` built before any slide
was registered, so every name is defined before its first use. -/
theorem style_names_defined_before_use :
    deckStylesDefined roscon23_deck = true ∧
    deckStylesDefined rust_cpp_interop_deck = true ∧
    roscon23_run.2.all
      (outputStylesDefined (styleNames roscon23_deck)) = true ∧
    rust_cpp_interop_run.2.all
      (outputStylesDefined (styleNames rust_cpp_interop_deck)) = true ∧
    roscon23_deck.styles = (init_deck none).styles ∧
    rust_cpp_interop_deck.styles = (init_deck (some "Noto Sans")).styles :=
  ⟨rfl, rfl, rfl, rfl, rfl, rfl⟩

theorem framePreserving_mk (p : Nat) (s : BState) (k : Nat) (added : List Ev)
    (h : ∀ e ∈ added, e.parentId = p ∨
        (s.next ≤ e.parentId ∧ e.parentId < s.next + k)) :
    framePreserving p s
      { s with next := s.next + k, events := s.events ++ added } :=
  ⟨rfl, rfl, Nat.le_add_right _ _, added, rfl, h⟩

/-- Claim C8: `logo_header_slide`, `image_slide`, `section_title_slide` and
`code_slide` are stateless composition wrappers — a call leaves the style
registry, the module globals and all previously built boxes unchanged, and
every event it emits attaches to the parent box passed in or to a box the
call itself created. -/
theorem layout_helpers_are_stateless_wrappers :
    ∀ (p : Nat) (t ip sub lang src : String) (s : BState),
      framePreserving p s (logo_header_slide p t s).2 ∧
      framePreserving p s (image_slide p t ip s).2 ∧
      framePreserving p s (section_title_slide p t sub s) ∧
      framePreserving p s (code_slide p t lang src s) := by
  intro p t ip sub lang src s
  refine ⟨?_, ?_, ?_, ?_⟩
  · rw [logo_header_slide_eq]
    refine framePreserving_mk p s 4 _ ?_
    intro e he
    simp only [logoHeaderEvs, List.mem_cons, List.not_mem_nil, or_false] at he
    rcases he with rfl | rfl | rfl | rfl | rfl | rfl <;>
      simp only [Ev.parentId] <;>
      first
      | exact Or.inl trivial
      | exact Or.inr (by constructor <;> omega)
  · rw [image_slide_eq]
    refine framePreserving_mk p s 7 _ ?_
    intro e he
    simp only [imageSlideEvs, logoHeaderEvs, List.mem_append, List.mem_cons,
      List.not_mem_nil, or_false] at he
    rcases he with (rfl | rfl | rfl | rfl | rfl | rfl) |
      (rfl | rfl | rfl | rfl) <;> simp only [Ev.parentId] <;>
      first
      | exact Or.inl trivial
      | exact Or.inr (by constructor <;> omega)
  · rw [section_title_slide_eq]
    refine framePreserving_mk p s 6 _ ?_
    intro e he
    simp only [sectionTitleEvs, logoHeaderEvs, List.mem_append, List.mem_cons,
      List.not_mem_nil, or_false] at he
    rcases he with (rfl | rfl | rfl | rfl | rfl | rfl) |
      (rfl | rfl | rfl | rfl) <;> simp only [Ev.parentId] <;>
      first
      | exact Or.inl trivial
      | exact Or.inr (by constructor <;> omega)
  · rw [code_slide_eq]
    refine framePreserving_mk p s 7 _ ?_
    intro e he
    simp only [codeSlideEvs, logoHeaderEvs, List.mem_append, List.mem_cons,
      List.not_mem_nil, or_false] at he
    rcases he with (rfl | rfl | rfl | rfl | rfl | rfl) |
      (rfl | rfl | rfl | rfl | rfl) <;> simp only [Ev.parentId] <;>
      first
      | exact Or.inl trivial
      | exact Or.inr (by constructor <;> omega)

/-- Claim C9 counterexample: the deck's third slide, `part_1`, is built by
`section_title_slide slide "RCLCPP\nParameters" "Part 1"`; its header box
does not hold its title in bold (the header text is empty — the title is
rendered inside the content box instead), so the claimed property fails on
it. -/
theorem section_title_header_lacks_title_counterexample :
    (roscon23_deck.slides.getD 2 emptySlide).name = "part_1" ∧
    headerHoldsTitle (roscon23_deck.slides.getD 2 emptySlide).events
      "RCLCPP\nParameters" = false ∧
    claimNineHolds (roscon23_deck.slides.getD 2 emptySlide).events
      "RCLCPP\nParameters" = false :=
  ⟨rfl, rfl, rfl⟩

theorem layoutFrame_append (p n0 : Nat) (ht : String) (evs0 tail : List Ev)
    (n1 : Nat)
    (hrest : ∀ e ∈ tail, n0 + 3 ≤ e.parentId ∧ e.parentId < n1) :
    LayoutFrame p n0 ht evs0 (evs0 ++ (logoHeaderEvs p n0 ht ++ tail)) n1 := by
  refine ⟨⟨n0, { x := some (Dim.px 1570), y := some (Dim.px 40) }, ?_, rfl,
      rfl, ?_⟩,
    ⟨n0 + 1,
      { name := some "header", x := some (Dim.px 0),
        height := some (Dim.px 140) },
      n0 + 2, { p_left := some 20 }, ?_, rfl, rfl, ?_, rfl, ?_⟩,
    ⟨n0 + 3, { name := some "content", p_left := some 20, p_right := some 20 },
      ?_, rfl, rfl, rfl⟩,
    tail, by simp, hrest⟩ <;>
  simp [logoHeaderEvs, List.mem_append, List.mem_cons]

/-- Claim C9, amended: every slide built through `image_slide`,
`section_title_slide` or `code_slide` first lays out the logo/header frame
on the parent: it contains the PickNik logo box at x=1570, y=40, a header
box of height 140 holding the title passed to `logo_header_slide` in bold —
the slide's own title for `image_slide` and `code_slide`, the empty string
for `section_title_slide`, whose title is rendered in the content box
instead — and a "content" box with left and right padding 20 inside which
all remaining content is attached. -/
theorem layout_slides_logo_header_content_amended :
    ∀ (p : Nat) (t ip sub lang src : String) (s : BState),
      LayoutFrame p s.next t s.events (image_slide p t ip s).2.events
        (image_slide p t ip s).2.next ∧
      LayoutFrame p s.next "" s.events (section_title_slide p t sub s).events
        (section_title_slide p t sub s).next ∧
      LayoutFrame p s.next t s.events (code_slide p t lang src s).events
        (code_slide p t lang src s).next := by
  intro p t ip sub lang src s
  refine ⟨?_, ?_, ?_⟩
  · rw [image_slide_eq]
    refine layoutFrame_append p s.next t s.events _ (s.next + 7) ?_
    intro e he
    simp only [List.mem_cons, List.not_mem_nil, or_false] at he
    rcases he with rfl | rfl | rfl | rfl <;>
      simp only [Ev.parentId] <;> constructor <;> omega
  · rw [section_title_slide_eq]
    refine layoutFrame_append p s.next "" s.events _ (s.next + 6) ?_
    intro e he
    simp only [List.mem_cons, List.not_mem_nil, or_false] at he
    rcases he with rfl | rfl | rfl | rfl <;>
      simp only [Ev.parentId] <;> constructor <;> omega
  · rw [code_slide_eq]
    refine layoutFrame_append p s.next t s.events _ (s.next + 7) ?_
    intro e he
    simp only [List.mem_cons, List.not_mem_nil, or_false] at he
    rcases he with rfl | rfl | rfl | rfl | rfl <;>
      simp only [Ev.parentId] <;> constructor <;> omega

/-- Claim C10: `my_page_numbering` labels every slide of the deck — for a
deck of `n` slides, the slide at 0-based position `i` receives exactly one
added page-number text box (one box-creation event and one text leaf), whose
displayed text, markup stripped, reads "i+1 of n"; page numbers are
therefore consecutive from 1 to n in slide order and every slide shows the
same total `n`. -/
theorem my_page_numbering_labels_every_slide :
    ∀ (d : SlideDeck) (i : Nat) (sl : Slide), d.slides[i]? = some sl →
      (my_page_numbering d).slides.length = d.slides.length ∧
      (my_page_numbering d).slides[i]? =
        some (addPageNum i d.slides.length sl) ∧
      (addPageNum i d.slides.length sl).events =
        sl.events ++
          [Ev.newBox sl.next sl.root NodeKind.box
              { x := some (Dim.str "[100%]"), y := some (Dim.str "[100%]"),
                p_right := some 30, p_bottom := some 30 },
           Ev.leaf sl.next
             (Leaf.text (pageText i d.slides.length)
               (some { align := some "right", size := some 36 }))] ∧
      stripMarkup (pageText i d.slides.length) =
        toString (i + 1) ++ " of " ++ toString d.slides.length := by
  intro d i sl h
  refine ⟨?_, ?_, ?_, stripMarkup_pageText i d.slides.length⟩
  · simp [my_page_numbering, List.enum_length]
  · simp [my_page_numbering, List.getElem?_map, List.getElem?_enum, h]
  · cases sl
    simp [addPageNum, box, newBox, text, addLeaf]

/-- Witness for the page-numbering theorem on a concrete one-slide deck. -/
theorem my_page_numbering_labels_every_slide_witness :
    (my_page_numbering ⟨1920, 1080, [], [emptySlide]⟩).slides[0]? =
      some (addPageNum 0 1 emptySlide) ∧
    stripMarkup (pageText 0 1) = "1 of 1" :=
  ⟨(my_page_numbering_labels_every_slide ⟨1920, 1080, [], [emptySlide]⟩ 0
      emptySlide rfl).2.1,
   (my_page_numbering_labels_every_slide ⟨1920, 1080, [], [emptySlide]⟩ 0
      emptySlide rfl).2.2.2⟩
